import Mathlib

/-!
Shallow embedding of `auxi/modelling/process/materials/thermo.py` (auxi 0.3.6):
the `Material` registry and the `MaterialPackage` / `MaterialStream` quantity
classes, with their mixing, scaling, extraction and temperature/enthalpy
operations.

Numbers: the Python code computes with IEEE floats (and numpy arrays of
floats); the embedding uses `ℚ`, so every algebraic identity proved here is
exact where the float code is exact up to rounding.  Division in `ℚ` is total
(`x / 0 = 0`); wherever the Python code can actually divide by zero the
embedding makes the failure explicit (see `secantLoop`) or the theorems carry
a non-zero hypothesis, and the spot is noted in a comment.

External collaborators (`thermo.H`, `stoichiometry.element_mass_fraction`,
`stoichiometry.convert_compound`, `coals.DafHTy().calculate`) are pure
functions per the spec; they are abstracted as an `Externals` record of functions
so theorems quantify over them, and concrete stubs instantiate them in
witnesses.
-/

/-- Errors the embedded operations can raise; each constructor corresponds to
one `raise` site (or to a runtime error the Python interpreter itself raises,
such as `AttributeError` for a call to a method the class does not define, or
`ZeroDivisionError` for float division by zero). -/
inductive Err where
  /-- "Invalid extraction operation. Cannot extract a mass larger ..." -/
  | overdraft
  /-- Python `AttributeError`: `MaterialPackage._calculate_H` calls
  `self._calculate_Hfr_coal`, a method only `MaterialStream` defines. -/
  | attributeError
  /-- Python `ZeroDivisionError` from float division by zero in the secant
  iteration when two consecutive residuals are equal. -/
  | divByZero
  /-- "The compound '...' was not found in ..." during different-material
  addition; carries the missing compound's name. -/
  | missingCompound (compound : String)
  /-- "Invalid multiplication operation. Cannot multiply ... with negative
  number." -/
  | invalidArgument
  /-- Python `ValueError` from `list.index` on an absent element. -/
  | valueError
  /-- Python `TypeError`, e.g. arithmetic on `None`. -/
  | typeError
  /-- Python `KeyError` from a dictionary lookup of an absent key. -/
  | keyError
deriving DecidableEq, Repr

/-- A compound: formula plus phase tag.  The Python code keys everything on
the combined string, e.g. `"Fe2O3[S1]"`; `compound.split('[')[0]` recovers
the bare formula, embedded here as the `formula` field. -/
structure Compound where
  formula : String
  phase : String
deriving DecidableEq, Repr, Inhabited

/-- The combined `formula[phase]` string the Python code passes to the
external `thermo.H`. -/
def Compound.name (c : Compound) : String :=
  c.formula ++ "[" ++ c.phase ++ "]"

/-- The external pure functions the module consumes (spec §6), abstracted:
`thermoH compound T mass` is `auxi.tools.chemistry.thermochemistry.H`;
`emf formula element` is `stoichiometry.element_mass_fraction`;
`daf T_kelvin y_C y_H y_O y_N y_S` is `coals.DafHTy().calculate`;
`cc mass from to element` is `stoichiometry.convert_compound`. -/
structure Externals where
  thermoH : String → ℚ → ℚ → ℚ
  emf : String → String → ℚ
  daf : ℚ → ℚ → ℚ → ℚ → ℚ → ℚ → ℚ
  cc : ℚ → String → String → String → ℚ

/-- `Material`: ordered compound list, named (converted) assays, and per-assay
custom scalar properties.  The text-file parsing constructor is out of scope
(spec §1); a `Material` value here is the parsed state. -/
structure Material where
  name : String
  compounds : List Compound
  converted_assays : List (String × List ℚ)
  custom_properties : List String
  assay_custom_properties : List (String × List (String × ℚ))
deriving DecidableEq, Repr, Inhabited

/-- `Material.get_compound_index`: `self.compounds.index(compound)`, the first
position of `compound` (callers guard membership; `list.index` on an absent
element raises `ValueError`, made explicit at each call site). -/
def Material.idx (m : Material) (c : Compound) : Nat :=
  m.compounds.indexOf c

/-- `Material.get_assay_total`: `sum(self.converted_assays[name])`, `none`
when the assay name is absent (Python `KeyError`). -/
def Material.get_assay_total (m : Material) (assay : String) : Option ℚ :=
  (m.converted_assays.lookup assay).map List.sum

/-- `Material._isCoal(assay)`: the `'IsCoal' in self.custom_properties` test
short-circuits to `False`; otherwise `self.assay_custom_properties[assay]`
is subscripted — a `KeyError` for any assay absent from that dict (which
only the file constructor populates; `add_assay` fills the assay dicts
alone) — and the assay's `IsCoal` custom property (default 0) is compared
with 1. -/
def Material.isCoalAssay (m : Material) (assay : String) : Except Err Bool :=
  if "IsCoal" ∈ m.custom_properties then
    match m.assay_custom_properties.lookup assay with
    | none => .error .keyError
    | some props => .ok (decide ((props.lookup "IsCoal").getD 0 = 1))
  else .ok false

/-- `Material._get_HHV(assay)`: unconditionally subscripts
`self.assay_custom_properties[assay]` (a `KeyError` when the assay is
absent from that dict), then reads the `HHV[MJ/kg]` custom property with
default `None`. -/
def Material.getHHV (m : Material) (assay : String) : Except Err (Option ℚ) :=
  match m.assay_custom_properties.lookup assay with
  | none => .error .keyError
  | some props => .ok (props.lookup "HHV[MJ/kg]")

/-- `MaterialPackage` state: compound masses [kg], pressure [atm],
temperature [°C], enthalpy [kWh], coal flag and optional HHV [MJ/kg].

The Python constructor additionally sets `self._DH298` when `isCoal` holds
and the mass is positive; that attribute is read only by the orphaned
`_calculate_H_coal` (never called: `_calculate_H` dispatches to the
non-existent `_calculate_Hfr_coal` and raises `AttributeError` first), so it
is not observable and is not modelled as a field. -/
structure MaterialPackage where
  material : Material
  compound_masses : List ℚ
  P : ℚ
  T : ℚ
  isCoal : Bool
  HHV : Option ℚ
  H : ℚ
deriving DecidableEq, Repr, Inhabited

/-- `MaterialPackage.mass`: `self._compound_masses.sum()`. -/
def MaterialPackage.mass (p : MaterialPackage) : ℚ :=
  p.compound_masses.sum

/-- The mass (or mass flow) a quantity holds at a compound's index:
`masses[mat.get_compound_index(c)]`. -/
def massAt (mat : Material) (masses : List ℚ) (c : Compound) : ℚ :=
  masses.getD (mat.idx c) 0

/-- Body of `MaterialPackage._calculate_H`'s non-coal loop:
`H += thermo.H(compound, T, self._compound_masses[index])` over the
material's compounds, indexing the mass vector by `get_compound_index`. -/
def sumCompoundH (e : Externals) (mat : Material) (masses : List ℚ) (T : ℚ) : ℚ :=
  mat.compounds.foldl (fun H c => H + e.thermoH c.name T (masses.getD (mat.idx c) 0)) 0

/-- `MaterialPackage._calculate_H(T)`.  For coal the Python method executes
`return self._calculate_Hfr_coal(T)`, but `MaterialPackage` defines no
`_calculate_Hfr_coal` (only `MaterialStream` does), so the call raises
`AttributeError`; embedded as `.error .attributeError`.  (The class's
`_calculate_H_coal`, which the name suggests was meant, is itself broken: it
reads `y_C` before assignment.) -/
def MaterialPackage.calculate_H (e : Externals) (p : MaterialPackage) (T : ℚ) : Except Err ℚ :=
  if p.isCoal then .error .attributeError
  else .ok (sumCompoundH e p.material p.compound_masses T)

/-- One run of the secant loop of `_calculate_T` (`for i in range(2, 50)`),
carrying the two latest iterates and their residuals.  Per iteration:
`x[i] = x[i-1] - y[i-1]*((x[i-1]-x[i-2])/(y[i-1]-y[i-2]))`, then
`y[i] = f(x[i])`, then break when `abs(y[i-1]) < 1.0e-5` returning `x[i]`.
When `y[i-1] - y[i-2]` is zero the float division raises
`ZeroDivisionError`, embedded as `.error .divByZero`.  On exhausting the
budget the Python code returns `x[len(x)-1]`, the last computed iterate,
with no non-convergence signal — embedded as the fuel-0 case returning
`.ok` of the last iterate. -/
def secantLoop (f : ℚ → ℚ) (target : ℚ) : Nat → ℚ → ℚ → ℚ → ℚ → Except Err ℚ
  | 0, _, x1, _, _ => .ok x1
  | n + 1, x0, x1, y0, y1 =>
    if y1 - y0 = 0 then .error .divByZero
    else
      let x2 := x1 - y1 * ((x1 - x0) / (y1 - y0))
      let y2 := f x2 - target
      if |y1| < 1.0e-5 then .ok x2
      else secantLoop f target n x1 x2 y1 y2

/-- The shared secant solve of `MaterialPackage._calculate_T` and
`MaterialStream._calculate_T` (two verbatim copies in the source):
seeds `x0 = current T`, `x1 = x0 + 10.0`, residuals `f(x) - target`, then at
most 48 further iterations (`range(2, 50)`). -/
def secantSolve (f : ℚ → ℚ) (T0 target : ℚ) : Except Err ℚ :=
  secantLoop f target 48 T0 (T0 + 10) (f T0 - target) (f (T0 + 10) - target)

/-- Spec-side secant recursion, written from the spec's words (§4.2 "Inverse
solve"): `f(x) = enthalpy_at(x) − target`; iterate
`x[i] = x[i-1] − f(x[i-1])·(x[i-1]−x[i-2])/(f(x[i-1])−f(x[i-2]))` up to 48
further steps, stopping when `|f(x[i-1])| < 1e-5` and returning `x[i]`;
equal consecutive residuals are an unguarded division by zero; on budget
exhaustion the last computed iterate is returned without a non-convergence
signal.  Unlike `secantLoop` it re-evaluates `f` at the carried iterates
instead of threading residuals. -/
def specSecantRun (g : ℚ → ℚ) : Nat → ℚ → ℚ → Except Err ℚ
  | 0, _, x1 => .ok x1
  | n + 1, x0, x1 =>
    if g x1 - g x0 = 0 then .error .divByZero
    else
      let x2 := x1 - g x1 * ((x1 - x0) / (g x1 - g x0))
      if |g x1| < 1.0e-5 then .ok x2
      else specSecantRun g n x1 x2

/-- Spec-side inverse solve: seed at the current temperature and 10 °C above
it, then `specSecantRun` for 48 steps. -/
def specSecantSolve (enthalpy_at : ℚ → ℚ) (T0 target : ℚ) : Except Err ℚ :=
  specSecantRun (fun x => enthalpy_at x - target) 48 T0 (T0 + 10)

/-- `MaterialPackage._calculate_T(H)`: the secant solve against
`self._calculate_H`; for a coal package the very first evaluation of
`_calculate_H` raises (see `MaterialPackage.calculate_H`). -/
def MaterialPackage.calculate_T (e : Externals) (p : MaterialPackage) (H : ℚ) : Except Err ℚ :=
  if p.isCoal then .error .attributeError
  else secantSolve (fun t => sumCompoundH e p.material p.compound_masses t) p.T H

/-- The `T` property setter: `self._T = T; self._H = self._calculate_H(T)`. -/
def MaterialPackage.setT (e : Externals) (p : MaterialPackage) (T : ℚ) : Except Err MaterialPackage :=
  (MaterialPackage.calculate_H e { p with T := T } T).map
    (fun H => { p with T := T, H := H })

/-- The `H` property setter: `self._H = H; self._T = self._calculate_T(H)`;
the solve is seeded at the pre-assignment temperature. -/
def MaterialPackage.setH (e : Externals) (p : MaterialPackage) (H : ℚ) : Except Err MaterialPackage :=
  (MaterialPackage.calculate_T e p H).map
    (fun T => { p with H := H, T := T })

/-- The `MaterialPackage` constructor: stores the fields, then if the mass is
positive computes `self._H = self._calculate_H(T)` (for coal this raises, see
`MaterialPackage.calculate_H`), else sets `self._H = 0.0`. -/
def mkMaterialPackage (e : Externals) (mat : Material) (masses : List ℚ) (P T : ℚ)
    (isCoal : Bool) (HHV : Option ℚ) : Except Err MaterialPackage :=
  let pre : MaterialPackage :=
    { material := mat, compound_masses := masses, P := P, T := T,
      isCoal := isCoal, HHV := HHV, H := 0 }
  if 0 < masses.sum then
    (MaterialPackage.calculate_H e pre T).map (fun H => { pre with H := H })
  else .ok pre

/-- `Material.create_package(assay, mass, P, T, normalise)`: `none` yields the
empty package; otherwise composition `mass * converted_assays[assay] /
(normalise ? get_assay_total(assay) : 1.0)`, with the coal flag and HHV read
from the assay's custom properties.  An unknown assay name is a Python
`KeyError`. -/
def Material.create_package (e : Externals) (m : Material) (assay : Option String)
    (mass P T : ℚ) (normalise : Bool) : Except Err MaterialPackage :=
  match assay with
  | none =>
    mkMaterialPackage e m (List.replicate m.compounds.length 0) P T false none
  | some a =>
    match m.converted_assays.lookup a with
    | none => .error .keyError
    | some v =>
      let assay_total := if normalise then v.sum else 1
      match m.isCoalAssay a with
      | .error er => .error er
      | .ok isCoal =>
        match m.getHHV a with
        | .error er => .error er
        | .ok hhv =>
          mkMaterialPackage e m (v.map (fun x => mass * x / assay_total)) P T isCoal hhv

/-- `__add__`, tuple shape `(compound, mass)`: clone, add the mass at the
compound's index, add `thermo.H(compound, self._T, mass)` to `_H` directly
(no re-solve), reassert `_P`.  `list.index` on an absent compound would raise
`ValueError`. -/
def MaterialPackage.addCompoundMass (e : Externals) (p : MaterialPackage)
    (c : Compound) (mass : ℚ) : Except Err MaterialPackage :=
  if c ∈ p.material.compounds then
    let i := p.material.idx c
    .ok { p with
          compound_masses := p.compound_masses.set i (p.compound_masses.getD i 0 + mass),
          H := p.H + e.thermoH c.name p.T mass }
  else .error .valueError

/-- `MaterialPackage.__mul__(scalar)`: negative scalars raise; otherwise a
new package is constructed from the scaled composition at the held `_P` and
`_T` (constructor defaults `isCoal=False`, `HHV=None`), whose constructor
recomputes the enthalpy from the forward function at `_T`. -/
def MaterialPackage.mul (e : Externals) (p : MaterialPackage) (scalar : ℚ) :
    Except Err MaterialPackage :=
  if scalar < 0 then .error .invalidArgument
  else mkMaterialPackage e p.material (p.compound_masses.map (· * scalar)) p.P p.T false none

/-- `MaterialPackage.clear()`: masses `*= 0.0`, `P = 1.0`, `T = 25.0`,
`H = 0.0`, with no solver call. -/
def MaterialPackage.clear (p : MaterialPackage) : MaterialPackage :=
  { p with compound_masses := p.compound_masses.map (· * 0), P := 1, T := 25, H := 0 }

/-- `MaterialPackage.get_assay()`: `self._compound_masses /
self._compound_masses.sum()` with no guard; when the total is zero the numpy
float division is undefined (0/0 = NaN for an all-zero composition), which ℚ
cannot represent, so the undefined case is embedded as `none`. -/
def MaterialPackage.get_assay (p : MaterialPackage) : Option (List ℚ) :=
  if p.compound_masses.sum = 0 then none
  else some (p.compound_masses.map (fun x => x / p.compound_masses.sum))

/-- `MaterialPackage._extract_mass(mass)`: overdraft check first (raising
before any mutation), then the extracted package is built from the
proportional split, then self's masses are scaled down and `self.T = self.T`
forces the enthalpy recomputation against the smaller composition (raising
for a coal package, after the mutation).  Returns (final self, outcome).
When `self.mass` is zero (reachable only with `mass <= 0`) the numpy division
produces inf/NaN rather than raising; ℚ's total division stands in for it
on that out-of-claim path. -/
def MaterialPackage.extract_mass (e : Externals) (p : MaterialPackage) (mass : ℚ) :
    MaterialPackage × Except Err MaterialPackage :=
  if mass > p.mass then (p, .error .overdraft)
  else
    let fraction := mass / p.mass
    match mkMaterialPackage e p.material (p.compound_masses.map (· * fraction))
        p.P p.T false none with
    | .error er => (p, .error er)
    | .ok result =>
      let p1 := { p with compound_masses := p.compound_masses.map (· * (1 - fraction)) }
      match MaterialPackage.setT e p1 p1.T with
      | .error er => (p1, .error er)
      | .ok p2 => (p2, .ok result)

/-- `MaterialPackage._extract_compound_mass(compound, mass)`: an absent
compound yields an empty package with self untouched; an overdraft raises
before any mutation; otherwise self's entry is reduced, `self.T = self.T`
recomputes the enthalpy (raising for a coal package, after the mutation),
and the extracted package is a fresh empty package plus the tuple shape. -/
def MaterialPackage.extract_compound_mass (e : Externals) (p : MaterialPackage)
    (c : Compound) (mass : ℚ) : MaterialPackage × Except Err MaterialPackage :=
  if c ∈ p.material.compounds then
    let i := p.material.idx c
    if mass > p.compound_masses.getD i 0 then (p, .error .overdraft)
    else
      let p1 := { p with compound_masses := p.compound_masses.set i (p.compound_masses.getD i 0 - mass) }
      match MaterialPackage.setT e p1 p1.T with
      | .error er => (p1, .error er)
      | .ok p2 =>
        (p2, (Material.create_package e p.material none 0 p.P p.T true).bind
          (fun r => MaterialPackage.addCompoundMass e r c mass))
  else (p, Material.create_package e p.material none 0 1 25 true)

/-- Accumulator of the coal classification loops: the five pure-element mass
(flow) buckets and one enthalpy accumulator (`Hfr` of non-lumped compounds in
`_calculate_Hfr_coal`, `Hin` of lumped compounds in `_calculate_DH298_coal`). -/
structure CoalAcc where
  mC : ℚ
  mH : ℚ
  mO : ℚ
  mN : ℚ
  mS : ℚ
  acc : ℚ
deriving DecidableEq, Repr

/-- One step of `MaterialStream._calculate_Hfr_coal`'s loop: a compound whose
bare formula is a pure C, H, O, N or S element (external
`element_mass_fraction` returning exactly 1.0, tested in that order) is
lumped into the matching mass bucket; any other compound's enthalpy
`thermo.H(compound, T, mfr)` is accumulated directly. -/
def coalLumpStep (e : Externals) (T mfr : ℚ) (c : Compound) (a : CoalAcc) : CoalAcc :=
  if e.emf c.formula "C" = 1 then { a with mC := a.mC + mfr }
  else if e.emf c.formula "H" = 1 then { a with mH := a.mH + mfr }
  else if e.emf c.formula "O" = 1 then { a with mO := a.mO + mfr }
  else if e.emf c.formula "N" = 1 then { a with mN := a.mN + mfr }
  else if e.emf c.formula "S" = 1 then { a with mS := a.mS + mfr }
  else { a with acc := a.acc + e.thermoH c.name T mfr }

/-- One step of `MaterialStream._calculate_DH298_coal`'s loop: pure-element
compounds are lumped and their 25 °C enthalpy accumulated into `Hin`;
other compounds are skipped. -/
def dh298Step (e : Externals) (mfr : ℚ) (c : Compound) (a : CoalAcc) : CoalAcc :=
  if e.emf c.formula "C" = 1 then
    { a with mC := a.mC + mfr, acc := a.acc + e.thermoH c.name 25 mfr }
  else if e.emf c.formula "H" = 1 then
    { a with mH := a.mH + mfr, acc := a.acc + e.thermoH c.name 25 mfr }
  else if e.emf c.formula "O" = 1 then
    { a with mO := a.mO + mfr, acc := a.acc + e.thermoH c.name 25 mfr }
  else if e.emf c.formula "N" = 1 then
    { a with mN := a.mN + mfr, acc := a.acc + e.thermoH c.name 25 mfr }
  else if e.emf c.formula "S" = 1 then
    { a with mS := a.mS + mfr, acc := a.acc + e.thermoH c.name 25 mfr }
  else a

/-- `MaterialStream` state: compound mass flow rates [kg/h], pressure [atm],
temperature [°C], enthalpy flow rate [kWh/h], coal flag, optional HHV
[MJ/kg], and the daf formation-enthalpy calibration `_DH298` [kWh/kg daf]
(set by the `HHV` property setter when the coal flag holds; 0 stands for the
Python attribute never having been assigned, which no non-coal path reads). -/
structure MaterialStream where
  material : Material
  compound_mfrs : List ℚ
  P : ℚ
  T : ℚ
  isCoal : Bool
  HHV : Option ℚ
  DH298 : ℚ
  Hfr : ℚ
deriving DecidableEq, Repr, Inhabited

/-- `MaterialStream.mfr`: `self._compound_mfrs.sum()`. -/
def MaterialStream.mfr (s : MaterialStream) : ℚ :=
  s.compound_mfrs.sum

/-- The classification fold of `MaterialStream._calculate_Hfr_coal`. -/
def MaterialStream.hfrCoalAcc (e : Externals) (s : MaterialStream) (T : ℚ) : CoalAcc :=
  s.material.compounds.foldl
    (fun a c => coalLumpStep e T (massAt s.material s.compound_mfrs c) c a)
    ⟨0, 0, 0, 0, 0, 0⟩

/-- `MaterialStream._calculate_Hfr_coal(T)`: lump the pure C/H/O/N/S
compounds, evaluate the rest individually, then add the daf contribution
`(h(T) − h(298.15 K) + DH298) · m_total` where `h` is the external daf
correlation divided by 3.6e6 (J/kg → kWh/kg).  When the daf total `m_total`
is zero the numpy divisions for the `y_*` fractions are NaN (no exception);
ℚ's total division stands in for that degenerate case and the theorems
assume a positive daf mass. -/
def MaterialStream.calculate_Hfr_coal (e : Externals) (s : MaterialStream) (T : ℚ) : ℚ :=
  let a := MaterialStream.hfrCoalAcc e s T
  let m_total := a.mC + a.mH + a.mO + a.mN + a.mS
  let y_C := a.mC / m_total
  let y_H := a.mH / m_total
  let y_O := a.mO / m_total
  let y_N := a.mN / m_total
  let y_S := a.mS / m_total
  let H := e.daf (T + 273.15) y_C y_H y_O y_N y_S / 3.6e6
  let H298 := e.daf 298.15 y_C y_H y_O y_N y_S / 3.6e6
  let Hdaf := (H - H298 + s.DH298) * m_total
  a.acc + Hdaf

/-- `MaterialStream._calculate_Hfr(T)`: the coal route when the flag is set,
else the additive per-compound sum (a verbatim duplicate of the package
loop, shared here as `sumCompoundH`). -/
def MaterialStream.calculate_Hfr (e : Externals) (s : MaterialStream) (T : ℚ) : ℚ :=
  if s.isCoal then MaterialStream.calculate_Hfr_coal e s T
  else sumCompoundH e s.material s.compound_mfrs T

/-- The classification fold of `MaterialStream._calculate_DH298_coal`. -/
def MaterialStream.dh298Acc (e : Externals) (s : MaterialStream) : CoalAcc :=
  s.material.compounds.foldl
    (fun a c => dh298Step e (massAt s.material s.compound_mfrs c) c a)
    ⟨0, 0, 0, 0, 0, 0⟩

/-- `MaterialStream._calculate_DH298_coal()`: balance the lumped elemental
inputs at 25 °C against complete-combustion products (CO2, H2O, SO2, O2,
N2) at 25 °C, combined with the user HHV (MJ/kg → kWh/kg, rescaled to the
daf basis) or, absent one, the value inferred from the same balance. -/
def MaterialStream.calculate_DH298_coal (e : Externals) (s : MaterialStream) : ℚ :=
  let a := MaterialStream.dh298Acc e s
  let m_total := a.mC + a.mH + a.mO + a.mN + a.mS
  let Hout0 := e.thermoH "CO2[G]" 25 (e.cc a.mC "C" "CO2" "C")
    + e.thermoH "H2O[L]" 25 (e.cc a.mH "H" "H2O" "H")
    + e.thermoH "O2[G]" 25 a.mO
    + e.thermoH "N2[G]" 25 a.mN
    + e.thermoH "SO2[G]" 25 (e.cc a.mS "S" "SO2" "S")
  let Hout := Hout0 / m_total
  let HHV :=
    match s.HHV with
    | none => (Hout - a.acc) / m_total
    | some v => v / 3.6 * (s.mfr / m_total)
  HHV + Hout

/-- The `HHV` property setter: store the value, and when the coal flag is set
recompute `_DH298` via `_calculate_DH298_coal`. -/
def MaterialStream.setHHV (e : Externals) (s : MaterialStream) (HHV : Option ℚ) : MaterialStream :=
  let s1 := { s with HHV := HHV }
  if s1.isCoal then { s1 with DH298 := MaterialStream.calculate_DH298_coal e s1 } else s1

/-- The `MaterialStream` constructor: store the fields (`isCoal` before the
`HHV` property assignment, which calibrates `_DH298` for coal), then
`self._Hfr = self._calculate_Hfr(T)` when the flow is positive, else 0. -/
def mkMaterialStream (e : Externals) (mat : Material) (mfrs : List ℚ) (P T : ℚ)
    (isCoal : Bool) (HHV : Option ℚ) : MaterialStream :=
  let s0 : MaterialStream :=
    { material := mat, compound_mfrs := mfrs, P := P, T := T,
      isCoal := isCoal, HHV := none, DH298 := 0, Hfr := 0 }
  let s1 := MaterialStream.setHHV e s0 HHV
  if 0 < s1.mfr then { s1 with Hfr := MaterialStream.calculate_Hfr e s1 T }
  else { s1 with Hfr := 0 }

/-- `Material.create_stream(assay, mfr, P, T, normalise)`: the stream
counterpart of `Material.create_package`. -/
def Material.create_stream (e : Externals) (m : Material) (assay : Option String)
    (mfr P T : ℚ) (normalise : Bool) : Except Err MaterialStream :=
  match assay with
  | none =>
    .ok (mkMaterialStream e m (List.replicate m.compounds.length 0) P T false none)
  | some a =>
    match m.converted_assays.lookup a with
    | none => .error .keyError
    | some v =>
      let assay_total := if normalise then v.sum else 1
      match m.isCoalAssay a with
      | .error er => .error er
      | .ok isCoal =>
        match m.getHHV a with
        | .error er => .error er
        | .ok hhv =>
          .ok (mkMaterialStream e m (v.map (fun x => mfr * x / assay_total)) P T isCoal hhv)

/-- `MaterialStream._calculate_T(Hfr)`: a verbatim duplicate of the package
secant solve, against `self._calculate_Hfr`. -/
def MaterialStream.calculate_T (e : Externals) (s : MaterialStream) (Hfr : ℚ) : Except Err ℚ :=
  secantSolve (fun t => MaterialStream.calculate_Hfr e s t) s.T Hfr

/-- The stream `T` property setter. -/
def MaterialStream.setT (e : Externals) (s : MaterialStream) (T : ℚ) : MaterialStream :=
  { s with T := T, Hfr := MaterialStream.calculate_Hfr e s T }

/-- `MaterialStream.__mul__(scalar)`: negative scalars raise; otherwise a new
stream from the scaled composition at the held `_P`, `_T` and the operand's
own coal flag and HHV (unlike the package version, which drops them). -/
def MaterialStream.mul (e : Externals) (s : MaterialStream) (scalar : ℚ) :
    Except Err MaterialStream :=
  if scalar < 0 then .error .invalidArgument
  else .ok (mkMaterialStream e s.material (s.compound_mfrs.map (· * scalar)) s.P s.T
    s.isCoal s.HHV)

/-- `MaterialStream.clear()`: flows `*= 0.0`, `P = 1.0`, `T = 25.0` — and
then `self._H = 0.0`, a stray attribute: the stream's enthalpy flow field is
`_Hfr`, which this method never touches, so `Hfr` keeps its old value
(against the method's own docstring "Set ... the enthalpy to zero"). -/
def MaterialStream.clear (s : MaterialStream) : MaterialStream :=
  { s with compound_mfrs := s.compound_mfrs.map (· * 0), P := 1, T := 25 }

/-- `MaterialStream.get_assay()`: `self._compound_mfrs /
self._compound_mfrs.sum()` with no guard; the undefined zero-total division
(NaN) is embedded as `none` as in `MaterialPackage.get_assay`. -/
def MaterialStream.get_assay (s : MaterialStream) : Option (List ℚ) :=
  if s.compound_mfrs.sum = 0 then none
  else some (s.compound_mfrs.map (fun x => x / s.compound_mfrs.sum))

deriving instance DecidableEq for Except

/-!  Concrete instantiations used by witnesses and counterexamples.  -/

/-- Stub externals: the per-compound enthalpy is `mass · (T − 25)` (0 at
25 °C for any compound, linear in T so the secant solve lands exactly), the
element mass fraction is 1 exactly on a pure-element formula, the daf
correlation is linear in the kelvin temperature, and the stoichiometric
conversion preserves mass. -/
def stubExt : Externals :=
  { thermoH := fun _ T m => m * (T - 25)
    emf := fun f el => if f = el then 1 else 0
    daf := fun TK _ _ _ _ _ => 3600000 * TK
    cc := fun m _ _ _ => m }

/-- `Fe2O3[S1]`. -/
def cFe2O3 : Compound := ⟨"Fe2O3", "S1"⟩

/-- `SiO2[S1]`. -/
def cSiO2 : Compound := ⟨"SiO2", "S1"⟩

/-- `C[S]`: graphite, a pure-carbon compound. -/
def cC : Compound := ⟨"C", "S"⟩

/-- The spec §8 scenario material: compounds `[Fe2O3[S1], SiO2[S1]]`, one
assay `A = [0.9, 0.1]`, no custom properties. -/
def matFeSi : Material :=
  { name := "ilmenite"
    compounds := [cFe2O3, cSiO2]
    converted_assays := [("A", [0.9, 0.1])]
    custom_properties := []
    assay_custom_properties := [("A", [])] }

/-- A coal material: 80 % pure carbon, 20 % silica ash, with `IsCoal = 1`
and `HHV[MJ/kg] = 25` on its one assay. -/
def matCoal : Material :=
  { name := "coal"
    compounds := [cC, cSiO2]
    converted_assays := [("A", [0.8, 0.2])]
    custom_properties := ["IsCoal", "HHV[MJ/kg]"]
    assay_custom_properties := [("A", [("IsCoal", 1), ("HHV[MJ/kg]", 25)])] }

/-- A pure-carbon material for coal streams. -/
def matC : Material :=
  { name := "char"
    compounds := [cC]
    converted_assays := []
    custom_properties := []
    assay_custom_properties := [] }

/-- The spec §8 scenario package: 100 kg of `matFeSi` assay A at 25 °C,
1 atm (enthalpy 0 under `stubExt`). -/
def pkgFeSi : MaterialPackage :=
  { material := matFeSi, compound_masses := [90, 10], P := 1, T := 25,
    isCoal := false, HHV := none, H := 0 }

/-- A zero-mass, non-coal package of `matFeSi`. -/
def pkgZero : MaterialPackage :=
  { material := matFeSi, compound_masses := [0, 0], P := 1, T := 25,
    isCoal := false, HHV := none, H := 0 }

/-- A coal-flagged package (in Python such a package arises from a zero-mass
coal package — whose constructor skips the enthalpy evaluation — grown by
tuple addition, or by setting `isCoal` on an instance). -/
def pkgCoal : MaterialPackage :=
  { material := matCoal, compound_masses := [80, 20], P := 1, T := 25,
    isCoal := true, HHV := some 25, H := 0 }

/-!  Generic `Except` plumbing lemmas.  -/

/-- Mapping over `Except` yields `.ok` exactly through an `.ok`. -/
theorem except_map_eq_ok {α β : Type} (f : α → β) (x : Except Err α) (y : β) :
    x.map f = .ok y ↔ ∃ a, x = .ok a ∧ f a = y := by
  cases x with
  | error er => simp [Except.map]
  | ok a => simp [Except.map]

/-- The source's residual-threading loop agrees step for step with the
spec-side recursion that re-evaluates the residual function. -/
theorem secantLoop_eq_specRun (f : ℚ → ℚ) (target : ℚ) :
    ∀ (n : Nat) (x0 x1 : ℚ),
      secantLoop f target n x0 x1 (f x0 - target) (f x1 - target) =
        specSecantRun (fun x => f x - target) n x0 x1 := by
  intro n
  induction n with
  | zero => intro x0 x1; rfl
  | succ n ih =>
    intro x0 x1
    show secantLoop f target (n + 1) x0 x1 (f x0 - target) (f x1 - target) =
      specSecantRun (fun x => f x - target) (n + 1) x0 x1
    rw [secantLoop, specSecantRun]
    split
    · rfl
    · dsimp only
      split
      · rfl
      · exact ih x1 _

/-- The inverse solve of the source equals the spec-side secant solve. -/
theorem secantSolve_eq_spec (f : ℚ → ℚ) (T0 target : ℚ) :
    secantSolve f T0 target = specSecantSolve f T0 target :=
  secantLoop_eq_specRun f target 48 T0 (T0 + 10)

/-- Equal residuals at the two seeds make the very first secant step an
unguarded division by zero. -/
theorem secantSolve_seed_eq (f : ℚ → ℚ) (T0 target : ℚ)
    (h : f T0 = f (T0 + 10)) :
    secantSolve f T0 target = .error .divByZero := by
  rw [secantSolve]
  show secantLoop f target (47 + 1) T0 (T0 + 10) (f T0 - target) (f (T0 + 10) - target) =
    .error .divByZero
  rw [secantLoop, if_pos]
  rw [h, sub_self]

/-- When the seed temperature already hits the target exactly and the
+10 °C probe does not, the secant solve returns the seed exactly: the first
step computes `x2 = x1 - y1·((x1-x0)/(y1-0)) = x0`, and either the loop
breaks there or the next step carries the zero residual to a break at the
same point. -/
theorem secantSolve_exact (f : ℚ → ℚ) (T0 target : ℚ)
    (h0 : f T0 = target) (h1 : f (T0 + 10) ≠ target) :
    secantSolve f T0 target = .ok T0 := by
  have hy1 : f (T0 + 10) - target ≠ 0 := sub_ne_zero.mpr h1
  have hy0 : f T0 - target = 0 := by rw [h0, sub_self]
  have hx2 : T0 + 10 - (f (T0 + 10) - target) * ((T0 + 10 - T0) / (f (T0 + 10) - target - (f T0 - target))) = T0 := by
    rw [hy0, sub_zero]
    field_simp
  rw [secantSolve]
  show secantLoop f target (47 + 1) T0 (T0 + 10) (f T0 - target) (f (T0 + 10) - target) = .ok T0
  rw [secantLoop, if_neg (by rw [hy0, sub_zero]; exact hy1)]
  dsimp only
  rw [hx2]
  split
  · rfl
  · show secantLoop f target (46 + 1) (T0 + 10) T0 (f (T0 + 10) - target) (f T0 - target) = .ok T0
    rw [secantLoop, if_neg (by rw [hy0, zero_sub]; exact neg_ne_zero.mpr hy1)]
    dsimp only
    rw [hy0, zero_mul, sub_zero, if_pos (by rw [abs_zero]; norm_num)]

/-!  List helpers.  -/

/-- Dividing every entry by `s` divides the sum by `s`. -/
theorem sum_map_div (l : List ℚ) (s : ℚ) :
    (l.map (fun x => x / s)).sum = l.sum / s := by
  induction l with
  | nil => simp
  | cons a t ih => simp [ih, add_div]

/-- A non-coal package constructor always succeeds, with the enthalpy
evaluated by the forward function at positive mass and 0 otherwise. -/
theorem mkMaterialPackage_noncoal (e : Externals) (mat : Material) (ms : List ℚ) (P T : ℚ)
    (HHV : Option ℚ) :
    mkMaterialPackage e mat ms P T false HHV =
      .ok { material := mat, compound_masses := ms, P := P, T := T, isCoal := false,
            HHV := HHV, H := if 0 < ms.sum then sumCompoundH e mat ms T else 0 } := by
  by_cases h : 0 < ms.sum <;>
    simp [mkMaterialPackage, MaterialPackage.calculate_H, h, Except.map]

/-- `setH` on a non-coal package succeeds exactly when the secant solve
does, storing the requested enthalpy and the solved temperature. -/
theorem setH_noncoal_eq_ok (e : Externals) (p : MaterialPackage) (H : ℚ) (q : MaterialPackage)
    (hc : p.isCoal = false) :
    MaterialPackage.setH e p H = .ok q ↔
      ∃ t, secantSolve (fun u => sumCompoundH e p.material p.compound_masses u) p.T H = .ok t ∧
        q = { p with H := H, T := t } := by
  rw [MaterialPackage.setH, MaterialPackage.calculate_T, if_neg (by simp [hc])]
  rw [except_map_eq_ok]
  constructor
  · rintro ⟨t, ht, rfl⟩
    exact ⟨t, ht, rfl⟩
  · rintro ⟨t, ht, rfl⟩
    exact ⟨t, ht, rfl⟩

/-- A non-coal stream constructor: no DH298 calibration, enthalpy flow from
the forward sum at positive flow and 0 otherwise. -/
theorem mkMaterialStream_noncoal (e : Externals) (mat : Material) (ms : List ℚ) (P T : ℚ)
    (HHV : Option ℚ) :
    mkMaterialStream e mat ms P T false HHV =
      { material := mat, compound_mfrs := ms, P := P, T := T, isCoal := false,
        HHV := HHV, DH298 := 0,
        Hfr := if 0 < ms.sum then sumCompoundH e mat ms T else 0 } := by
  by_cases h : 0 < ms.sum <;>
    simp [mkMaterialStream, MaterialStream.setHHV, MaterialStream.calculate_Hfr,
      MaterialStream.mfr, h]

/-- The stream constructor stores the material, composition, pressure,
temperature, coal flag and HHV as given (only `DH298` and `Hfr` are
computed). -/
theorem mkMaterialStream_fields (e : Externals) (mat : Material) (ms : List ℚ) (P T : ℚ)
    (isCoal : Bool) (HHV : Option ℚ) :
    (mkMaterialStream e mat ms P T isCoal HHV).material = mat ∧
    (mkMaterialStream e mat ms P T isCoal HHV).compound_mfrs = ms ∧
    (mkMaterialStream e mat ms P T isCoal HHV).P = P ∧
    (mkMaterialStream e mat ms P T isCoal HHV).T = T ∧
    (mkMaterialStream e mat ms P T isCoal HHV).isCoal = isCoal ∧
    (mkMaterialStream e mat ms P T isCoal HHV).HHV = HHV := by
  unfold mkMaterialStream MaterialStream.setHHV
  dsimp only
  split <;> split <;> simp

/-- The constructor's enthalpy-flow field: forward-evaluated at the stored
temperature for positive flow — through the constructed stream's own route,
coal or not — and zero otherwise. -/
theorem mkMaterialStream_Hfr (e : Externals) (mat : Material) (ms : List ℚ) (P T : ℚ)
    (isCoal : Bool) (HHV : Option ℚ) :
    (mkMaterialStream e mat ms P T isCoal HHV).Hfr =
      (if 0 < ms.sum then
        MaterialStream.calculate_Hfr e (mkMaterialStream e mat ms P T isCoal HHV) T
      else 0) := by
  cases isCoal <;>
    by_cases hs : 0 < ms.sum <;>
    simp only [mkMaterialStream, MaterialStream.setHHV, MaterialStream.mfr, hs,
      show ((false : Bool) = true) = False from eq_false (fun h => Bool.noConfusion h),
      eq_self_iff_true, if_true, if_false, ite_true, ite_false] <;>
    rfl

/-- Forward direction of `setH_noncoal_eq_ok`, for assembling concrete runs. -/
theorem setH_noncoal_of_solve (e : Externals) (p : MaterialPackage) (H t : ℚ)
    (hc : p.isCoal = false)
    (h : secantSolve (fun u => sumCompoundH e p.material p.compound_masses u) p.T H = .ok t) :
    MaterialPackage.setH e p H = .ok { p with H := H, T := t } := by
  rw [setH_noncoal_eq_ok e p H _ hc]
  exact ⟨t, h, rfl⟩

/-- Evaluation of the forward enthalpy sum over `matFeSi` under `stubExt`. -/
theorem sumH_matFeSi (ms0 ms1 u : ℚ) :
    sumCompoundH stubExt matFeSi [ms0, ms1] u = (ms0 + ms1) * (u - 25) := by
  simp only [sumCompoundH, show matFeSi.compounds = [cFe2O3, cSiO2] from rfl,
    List.foldl_cons, List.foldl_nil,
    show Material.idx matFeSi cFe2O3 = 0 by decide,
    show Material.idx matFeSi cSiO2 = 1 by decide,
    show ∀ a b : ℚ, List.getD [a, b] 0 0 = a from fun a b => rfl,
    show ∀ a b : ℚ, List.getD [a, b] 1 0 = b from fun a b => rfl, stubExt]
  ring

/-- Evaluation of the forward enthalpy sum over `matC` under `stubExt`. -/
theorem sumH_matC (ms0 u : ℚ) :
    sumCompoundH stubExt matC [ms0] u = ms0 * (u - 25) := by
  simp only [sumCompoundH, show matC.compounds = [cC] from rfl,
    List.foldl_cons, List.foldl_nil,
    show Material.idx matC cC = 0 by decide,
    show ∀ a : ℚ, List.getD [a] 0 0 = a from fun a => rfl, stubExt]
  ring

/-- A coal stream: 100 kg/h of pure carbon, HHV 30 MJ/kg, Hfr 100 kWh/h. -/
def strCoalA : MaterialStream :=
  { material := matC, compound_mfrs := [100], P := 1, T := 25, isCoal := true,
    HHV := some 30, DH298 := 0, Hfr := 100 }

/-- C3: the inverse temperature solve is exactly the specified secant
iteration — seeds `x0 = current T`, `x1 = x0 + 10`, at most 48 further
steps of `x[i] = x[i-1] − f(x[i-1])·(x[i-1]−x[i-2])/(f(x[i-1])−f(x[i-2]))`
with absolute stop `|f(x[i-1])| < 1e-5`, the last computed iterate returned
as a plain `.ok` on budget exhaustion (no non-convergence signal, by the
fuel-0 case of the common recursion) — both for `MaterialPackage` (whose
residual function is the non-coal forward sum) and for `MaterialStream`; and
equal consecutive residuals at the seeds are an unguarded division by
zero. -/
theorem C3_secant_inverse_solve (f : ℚ → ℚ) (T0 H : ℚ) (e : Externals)
    (p : MaterialPackage) (s : MaterialStream) :
    secantSolve f T0 H = specSecantSolve f T0 H ∧
    (p.isCoal = false → MaterialPackage.calculate_T e p H =
      specSecantSolve (fun t => sumCompoundH e p.material p.compound_masses t) p.T H) ∧
    MaterialStream.calculate_T e s H =
      specSecantSolve (fun t => MaterialStream.calculate_Hfr e s t) s.T H ∧
    (f T0 = f (T0 + 10) → secantSolve f T0 H = .error .divByZero) := by
  refine ⟨secantSolve_eq_spec f T0 H, ?_, ?_, secantSolve_seed_eq f T0 H⟩
  · intro hc
    rw [MaterialPackage.calculate_T, if_neg (by simp [hc]), secantSolve_eq_spec]
  · rw [MaterialStream.calculate_T, secantSolve_eq_spec]

/-- Closed instantiation of the C3 theorem: the refinement equality at a
constant residual function, where the equal seed residuals trigger the
division-by-zero error. -/
theorem C3_secant_inverse_solve_witness :
    secantSolve (fun _ => (0 : ℚ)) 0 0 = specSecantSolve (fun _ => (0 : ℚ)) 0 0 ∧
    secantSolve (fun _ => (0 : ℚ)) 0 0 = .error .divByZero := by
  have h := C3_secant_inverse_solve (fun _ => (0 : ℚ)) 0 0 stubExt pkgZero strCoalA
  exact ⟨h.1, h.2.2.2 rfl⟩

/-!  Claim C6: temperature/enthalpy round trip.  -/

/-- C6 (amended): for a non-coal package whose forward enthalpy at `T+10`
differs from that at `T` (any quantity with a nonzero effective heat
capacity), setting the temperature to `T`, reading the enthalpy and setting
it back reproduces `T` exactly — in particular within the claimed 1e-3 °C.
The hypothesis cannot be dropped: for a zero-mass package the two residuals
coincide and the solve divides by zero (`C6_roundtrip_counterexample`). -/
theorem C6_roundtrip (e : Externals) (p : MaterialPackage) (T : ℚ)
    (hc : p.isCoal = false)
    (hne : sumCompoundH e p.material p.compound_masses (T + 10) ≠
      sumCompoundH e p.material p.compound_masses T) :
    ∃ p2, (MaterialPackage.setT e p T).bind (fun p1 => MaterialPackage.setH e p1 p1.H) = .ok p2
      ∧ p2.T = T ∧ |p2.T - T| < 1 / 1000 := by
  have hset : MaterialPackage.setT e p T = .ok
      { p with T := T, H := sumCompoundH e p.material p.compound_masses T } := by
    rw [MaterialPackage.setT, MaterialPackage.calculate_H, if_neg (by simp [hc]), Except.map]
  refine ⟨{ p with T := T, H := sumCompoundH e p.material p.compound_masses T }, ?_, rfl, by
    rw [sub_self, abs_zero]; norm_num⟩
  rw [hset]
  show MaterialPackage.setH e
    { p with T := T, H := sumCompoundH e p.material p.compound_masses T }
    (sumCompoundH e p.material p.compound_masses T) = _
  rw [setH_noncoal_of_solve e _ _ T (by exact hc)
    (secantSolve_exact _ _ _ rfl (by exact hne))]

/-- C6 counterexample: a zero-mass, non-coal package at 25 °C: setting the
temperature, reading the enthalpy and setting it back does not reproduce any
temperature — the inverse solve raises the division-by-zero error, because
both seed residuals are zero. -/
theorem C6_roundtrip_counterexample :
    (MaterialPackage.setT stubExt pkgZero 25).bind
      (fun p1 => MaterialPackage.setH stubExt p1 p1.H) = .error .divByZero := by
  have hset : MaterialPackage.setT stubExt pkgZero 25 =
      .ok { pkgZero with T := 25, H := sumCompoundH stubExt matFeSi [0, 0] 25 } := by
    rw [MaterialPackage.setT, MaterialPackage.calculate_H, if_neg (by decide), Except.map]
    rfl
  rw [hset]
  show MaterialPackage.setH stubExt
    { pkgZero with T := 25, H := sumCompoundH stubExt matFeSi [0, 0] 25 }
    (sumCompoundH stubExt matFeSi [0, 0] 25) = _
  rw [MaterialPackage.setH, MaterialPackage.calculate_T, if_neg (by decide)]
  rw [secantSolve_seed_eq _ _ _ (by
    show sumCompoundH stubExt matFeSi [0, 0] 25 = sumCompoundH stubExt matFeSi [0, 0] (25 + 10)
    simp only [sumH_matFeSi]
    norm_num)]
  rfl

/-- Closed instantiation of the C6 theorem: the 100 kg `matFeSi` package at
25 °C round-trips to exactly 25 °C. -/
theorem C6_roundtrip_witness :
    ∃ p2, (MaterialPackage.setT stubExt pkgFeSi 25).bind
        (fun p1 => MaterialPackage.setH stubExt p1 p1.H) = .ok p2
      ∧ p2.T = 25 ∧ |p2.T - 25| < 1 / 1000 :=
  C6_roundtrip stubExt pkgFeSi 25 rfl (by
    simp only [show pkgFeSi.material = matFeSi from rfl,
      show pkgFeSi.compound_masses = [(90 : ℚ), 10] from rfl, sumH_matFeSi]
    norm_num)

/-!  Claim C5: scalar multiplication.  -/

/-- C5: multiplying a package or stream by a negative scalar fails as an
invalid argument; for a non-negative scalar the result's composition is the
original scaled, its pressure and temperature equal the original's, and its
enthalpy is recomputed from the forward enthalpy function at the held
temperature and the scaled composition — for the package always through the
non-coal forward sum, as the constructor is called without the coal flag;
for the stream, which passes its flag and HHV through, through the result's
own route (the coal model for coal streams — the case the spec's
nonlinearity rationale is about — and, stated explicitly in the final
clause, the additive per-compound sum for non-coal streams). -/
theorem C5_scalar_multiplication (e : Externals) (p : MaterialPackage)
    (s : MaterialStream) (k : ℚ) :
    (k < 0 → MaterialPackage.mul e p k = .error .invalidArgument ∧
      MaterialStream.mul e s k = .error .invalidArgument) ∧
    (0 ≤ k → MaterialPackage.mul e p k = .ok
      { material := p.material, compound_masses := p.compound_masses.map (· * k),
        P := p.P, T := p.T, isCoal := false, HHV := none,
        H := if 0 < (p.compound_masses.map (· * k)).sum
             then sumCompoundH e p.material (p.compound_masses.map (· * k)) p.T else 0 }) ∧
    (0 ≤ k → ∃ r, MaterialStream.mul e s k = .ok r ∧
      r.compound_mfrs = s.compound_mfrs.map (· * k) ∧ r.P = s.P ∧ r.T = s.T ∧
      r.isCoal = s.isCoal ∧ r.HHV = s.HHV ∧
      r.Hfr = (if 0 < (s.compound_mfrs.map (· * k)).sum
        then MaterialStream.calculate_Hfr e r s.T else 0) ∧
      (s.isCoal = false → r.Hfr = (if 0 < (s.compound_mfrs.map (· * k)).sum
        then sumCompoundH e s.material (s.compound_mfrs.map (· * k)) s.T else 0))) := by
  refine ⟨?_, ?_, ?_⟩
  · intro hk
    exact ⟨by rw [MaterialPackage.mul, if_pos hk], by rw [MaterialStream.mul, if_pos hk]⟩
  · intro hk
    rw [MaterialPackage.mul, if_neg (not_lt.mpr hk), mkMaterialPackage_noncoal]
  · intro hk
    obtain ⟨h1, h2, h3, h4, h5, h6⟩ := mkMaterialStream_fields e s.material
      (s.compound_mfrs.map (· * k)) s.P s.T s.isCoal s.HHV
    refine ⟨mkMaterialStream e s.material (s.compound_mfrs.map (· * k)) s.P s.T s.isCoal s.HHV,
      by rw [MaterialStream.mul, if_neg (not_lt.mpr hk)], h2, h3, h4, h5, h6,
      mkMaterialStream_Hfr e s.material (s.compound_mfrs.map (· * k)) s.P s.T s.isCoal s.HHV,
      ?_⟩
    intro hs
    rw [hs, mkMaterialStream_noncoal]

/-- The 100 kg `matFeSi` package scaled by 2. -/
def pkgFeSiTimes2 : MaterialPackage :=
  { material := matFeSi, compound_masses := [180, 20], P := 1, T := 25,
    isCoal := false, HHV := none, H := 0 }

/-- The coal stream `strCoalA` scaled by 2: flow 200 kg/h, coal flag and
HHV 30 MJ/kg passed through, `DH298` recalibrated to `30/3.6 = 25/3`
kWh/kg daf, and the enthalpy flow re-evaluated through the coal route at
the held 25 °C to `200·(25/3) = 5000/3` kWh/h (not the linear scaling
`2·100 = 200` of the operand's stored flow). -/
def strCoalATimes2 : MaterialStream :=
  { material := matC, compound_mfrs := [200], P := 1, T := 25, isCoal := true,
    HHV := some 30, DH298 := 25 / 3, Hfr := 5000 / 3 }

/-- Closed instantiation of the C5 theorem (the spec §8 scenario): the
100 kg package times 2.0 is 200 kg at unchanged T = 25 °C, P = 1 atm, and
multiplying by −1.0 fails with the invalid-argument error. -/
theorem C5_scalar_multiplication_witness :
    MaterialPackage.mul stubExt pkgFeSi 2 = .ok pkgFeSiTimes2 ∧
    MaterialPackage.mass pkgFeSiTimes2 = 200 ∧ pkgFeSiTimes2.T = 25 ∧ pkgFeSiTimes2.P = 1 ∧
    MaterialStream.mul stubExt strCoalA 2 = .ok strCoalATimes2 ∧
    MaterialPackage.mul stubExt pkgFeSi (-1) = .error .invalidArgument := by
  refine ⟨?_, by norm_num [MaterialPackage.mass, pkgFeSiTimes2], rfl, rfl, ?_, ?_⟩
  · rw [(C5_scalar_multiplication stubExt pkgFeSi strCoalA 2).2.1 (by norm_num)]
    simp only [show pkgFeSi.material = matFeSi from rfl,
      show pkgFeSi.compound_masses = [(90 : ℚ), 10] from rfl,
      show pkgFeSi.P = (1 : ℚ) from rfl, show pkgFeSi.T = (25 : ℚ) from rfl,
      List.map_cons, List.map_nil, List.sum_cons, List.sum_nil, pkgFeSiTimes2]
    norm_num [sumH_matFeSi]
  · rw [MaterialStream.mul, if_neg (by norm_num)]
    rw [show strCoalA.compound_mfrs.map (· * 2) = [(200 : ℚ)] by
      norm_num [show strCoalA.compound_mfrs = [(100 : ℚ)] from rfl]]
    show Except.ok (mkMaterialStream stubExt matC [(200 : ℚ)] 1 25 true (some 30))
      = Except.ok strCoalATimes2
    rw [show mkMaterialStream stubExt matC [(200 : ℚ)] 1 25 true (some 30)
        = strCoalATimes2 by
      norm_num [mkMaterialStream, MaterialStream.setHHV, MaterialStream.calculate_DH298_coal,
        MaterialStream.dh298Acc, dh298Step, MaterialStream.mfr, MaterialStream.calculate_Hfr,
        MaterialStream.calculate_Hfr_coal, MaterialStream.hfrCoalAcc, coalLumpStep, massAt,
        show matC.compounds = [cC] from rfl,
        show Material.idx matC cC = 0 by decide,
        show ∀ a : ℚ, List.getD [a] 0 0 = a from fun a => rfl,
        show ∀ a : ℚ, ([a] : List ℚ)[(0 : ℕ)]?.getD 0 = a from fun a => rfl,
        show cC.formula = "C" from rfl,
        List.foldl_cons, List.foldl_nil, stubExt, strCoalATimes2]]
  · exact ((C5_scalar_multiplication stubExt pkgFeSi strCoalA (-1)).1 (by norm_num)).1

/-!  Claim C4: extraction overdraft and failure atomicity.  -/

/-- C4: extraction fails with the overdraft error when the requested scalar
amount exceeds the package's total mass, or when a per-compound amount
exceeds that compound's current amount, and in both cases the source is
returned completely unchanged — the overdraft check precedes every
mutation.  The claim's stronger "whenever extraction fails the source is
unchanged" is false as stated: extracting a valid 10 kg from the coal
package `pkgCoal` first scales the composition down and only then fails
(AttributeError from the coal enthalpy dispatch in `self.T = self.T`),
leaving the source mutated — the last two conjuncts evaluate that run. -/
theorem C4_extraction_overdraft (e : Externals) (p : MaterialPackage) (c : Compound) (m : ℚ) :
    (p.mass < m → MaterialPackage.extract_mass e p m = (p, .error .overdraft)) ∧
    (c ∈ p.material.compounds → p.compound_masses.getD (p.material.idx c) 0 < m →
      MaterialPackage.extract_compound_mass e p c m = (p, .error .overdraft)) ∧
    MaterialPackage.extract_mass stubExt pkgCoal 10 =
      ({ pkgCoal with compound_masses := [72, 18] }, .error .attributeError) ∧
    ({ pkgCoal with compound_masses := [72, 18] } : MaterialPackage).compound_masses ≠
      pkgCoal.compound_masses := by
  refine ⟨fun hm => by rw [MaterialPackage.extract_mass, if_pos hm],
    fun hc hm => by rw [MaterialPackage.extract_compound_mass, if_pos hc, if_pos hm],
    ?_, by norm_num [pkgCoal]⟩
  rw [MaterialPackage.extract_mass,
    if_neg (by norm_num [pkgCoal, MaterialPackage.mass])]
  dsimp only
  rw [mkMaterialPackage_noncoal]
  dsimp only
  rw [show pkgCoal.compound_masses.map
      (fun x => x * (1 - 10 / MaterialPackage.mass pkgCoal)) = [72, 18] by
    norm_num [pkgCoal, MaterialPackage.mass]]
  rw [MaterialPackage.setT, MaterialPackage.calculate_H, if_pos (by decide)]
  rfl

/-- Closed instantiation of the C4 theorem: extracting 200 kg from the
100 kg package, and 11 kg of SiO2 from its 10 kg, both fail with the
overdraft error and leave the package unchanged. -/
theorem C4_extraction_overdraft_witness :
    MaterialPackage.extract_mass stubExt pkgFeSi 200 = (pkgFeSi, .error .overdraft) ∧
    MaterialPackage.extract_compound_mass stubExt pkgFeSi cSiO2 11 =
      (pkgFeSi, .error .overdraft) := by
  constructor
  · exact (C4_extraction_overdraft stubExt pkgFeSi cSiO2 200).1
      (by norm_num [pkgFeSi, MaterialPackage.mass])
  · exact (C4_extraction_overdraft stubExt pkgFeSi cSiO2 11).2.1 (by decide) (by
      simp only [show pkgFeSi.compound_masses = [(90 : ℚ), 10] from rfl,
        show Material.idx pkgFeSi.material cSiO2 = 1 by decide,
        show List.getD [(90 : ℚ), 10] 1 0 = 10 from rfl]
      norm_num)

/-!  Claim C9: clear().  -/

/-- A non-coal stream with a nonzero enthalpy flow rate of 7 kWh/h. -/
def strS9 : MaterialStream :=
  { material := matFeSi, compound_mfrs := [90, 10], P := 3, T := 400, isCoal := false,
    HHV := none, DH298 := 0, Hfr := 7 }

/-- C9: `MaterialPackage.clear` yields exactly zero composition, `H = 0`,
`T = 25` °C and `P = 1` atm with the solver bypassed (the fields are
assigned directly); but `MaterialStream.clear` assigns the stray attribute
`_H` instead of the stream's enthalpy-flow field `_Hfr`, so the stream's
enthalpy flow keeps its old value — on `strS9` (`Hfr = 7`) the cleared
stream still reports 7 ≠ 0, against the claim and the method's own
docstring. -/
theorem C9_clear (p : MaterialPackage) (s : MaterialStream) :
    ((MaterialPackage.clear p).compound_masses = p.compound_masses.map (· * 0) ∧
     (∀ x ∈ (MaterialPackage.clear p).compound_masses, x = 0) ∧
     (MaterialPackage.clear p).P = 1 ∧ (MaterialPackage.clear p).T = 25 ∧
     (MaterialPackage.clear p).H = 0) ∧
    ((∀ x ∈ (MaterialStream.clear s).compound_mfrs, x = 0) ∧
     (MaterialStream.clear s).P = 1 ∧ (MaterialStream.clear s).T = 25 ∧
     (MaterialStream.clear s).Hfr = s.Hfr) ∧
    (MaterialStream.clear strS9).Hfr = 7 ∧ (7 : ℚ) ≠ 0 := by
  refine ⟨⟨rfl, ?_, rfl, rfl, rfl⟩, ⟨?_, rfl, rfl, rfl⟩, rfl, by norm_num⟩
  · intro x hx
    simp only [MaterialPackage.clear, List.mem_map] at hx
    obtain ⟨a, -, rfl⟩ := hx
    exact mul_zero a
  · intro x hx
    simp only [MaterialStream.clear, List.mem_map] at hx
    obtain ⟨a, -, rfl⟩ := hx
    exact mul_zero a

/-!  Claim C10: get_assay and its zero-total division.  -/

/-- C10: `get_assay` divides the composition vector by its own sum with no
guard: for a positive total it returns the mass fractions, which sum to
exactly 1; for an all-zero composition the 0/0 division is undefined (NaN
in the numpy code, the `none` case of the embedding) rather than an
exception or a defined vector. -/
theorem C10_get_assay (p : MaterialPackage) (s : MaterialStream) :
    (0 < p.compound_masses.sum →
      MaterialPackage.get_assay p =
        some (p.compound_masses.map (fun x => x / p.compound_masses.sum)) ∧
      ∀ l, MaterialPackage.get_assay p = some l → l.sum = 1) ∧
    ((∀ x ∈ p.compound_masses, x = 0) → MaterialPackage.get_assay p = none) ∧
    (0 < s.compound_mfrs.sum →
      MaterialStream.get_assay s =
        some (s.compound_mfrs.map (fun x => x / s.compound_mfrs.sum)) ∧
      ∀ l, MaterialStream.get_assay s = some l → l.sum = 1) ∧
    ((∀ x ∈ s.compound_mfrs, x = 0) → MaterialStream.get_assay s = none) := by
  refine ⟨?_, ?_, ?_, ?_⟩
  · intro h
    have hne : p.compound_masses.sum ≠ 0 := h.ne'
    constructor
    · rw [MaterialPackage.get_assay, if_neg hne]
    · intro l hl
      rw [MaterialPackage.get_assay, if_neg hne, Option.some.injEq] at hl
      rw [← hl, sum_map_div, div_self hne]
  · intro h
    rw [MaterialPackage.get_assay, if_pos (List.sum_eq_zero h)]
  · intro h
    have hne : s.compound_mfrs.sum ≠ 0 := h.ne'
    constructor
    · rw [MaterialStream.get_assay, if_neg hne]
    · intro l hl
      rw [MaterialStream.get_assay, if_neg hne, Option.some.injEq] at hl
      rw [← hl, sum_map_div, div_self hne]
  · intro h
    rw [MaterialStream.get_assay, if_pos (List.sum_eq_zero h)]

/-- Closed instantiation of the C10 theorem: the 100 kg package's assay is
`[9/10, 1/10]` (summing to 1), and the zero-mass package's assay is the
undefined 0/0 case. -/
theorem C10_get_assay_witness :
    MaterialPackage.get_assay pkgFeSi = some [9 / 10, 1 / 10] ∧
    MaterialPackage.get_assay pkgZero = none := by
  constructor
  · have h := ((C10_get_assay pkgFeSi strS9).1 (by
      norm_num [pkgFeSi, List.sum_cons, List.sum_nil])).1
    rw [h]
    norm_num [pkgFeSi, List.sum_cons, List.sum_nil]
  · exact (C10_get_assay pkgZero strS9).2.1 (by decide)

/-!  Claim C8: factory creation from a named assay.  -/

/-- A material whose assay `B` was added programmatically (`add_assay`
populates only `raw_assays`/`converted_assays`): `assay_custom_properties`
has no `B` entry. -/
def matAdd : Material :=
  { name := "added"
    compounds := [cSiO2]
    converted_assays := [("B", [1])]
    custom_properties := []
    assay_custom_properties := [] }

/-- C8: for a named assay with a custom-properties entry, `create_package`
(resp. `create_stream`) yields a quantity whose composition is
`mass (resp. flow) × assay / (normalise ? assay_total : 1)`, with the coal
flag and HHV read from the assay's custom properties `IsCoal` and
`HHV[MJ/kg]` — proved for non-coal assays (package) and for every such
assay (stream).  The claim's "for every named assay" fails on the code
twice, in the last three conjuncts: a coal assay with positive mass raises
the AttributeError of the coal enthalpy dispatch inside the package
constructor, and an assay added via `add_assay` (present in the assay
dicts, absent from `assay_custom_properties`) raises KeyError inside
`_get_HHV` for package and stream alike. -/
theorem C8_create_from_assay (e : Externals) (m : Material) (a : String) (v : List ℚ)
    (props : List (String × ℚ)) (ic : Bool) (mass mfr P T : ℚ) (normalise : Bool)
    (hv : m.converted_assays.lookup a = some v)
    (hp : m.assay_custom_properties.lookup a = some props)
    (hic : m.isCoalAssay a = .ok ic) :
    (ic = false → Material.create_package e m (some a) mass P T normalise = .ok
      { material := m,
        compound_masses := v.map (fun x => mass * x / (if normalise then v.sum else 1)),
        P := P, T := T, isCoal := false, HHV := props.lookup "HHV[MJ/kg]",
        H := if 0 < (v.map (fun x => mass * x / (if normalise then v.sum else 1))).sum
             then sumCompoundH e m
               (v.map (fun x => mass * x / (if normalise then v.sum else 1))) T
             else 0 }) ∧
    (∃ r, Material.create_stream e m (some a) mfr P T normalise = .ok r ∧
      r.compound_mfrs = v.map (fun x => mfr * x / (if normalise then v.sum else 1)) ∧
      r.isCoal = ic ∧ r.HHV = props.lookup "HHV[MJ/kg]" ∧ r.P = P ∧ r.T = T) ∧
    Material.create_package stubExt matCoal (some "A") 100 1 25 true =
      .error .attributeError ∧
    Material.create_package stubExt matAdd (some "B") 50 1 25 true = .error .keyError ∧
    Material.create_stream stubExt matAdd (some "B") 50 1 25 true = .error .keyError := by
  have hH : m.getHHV a = .ok (props.lookup "HHV[MJ/kg]") := by
    rw [Material.getHHV, hp]
  refine ⟨?_, ?_, ?_, ?_, ?_⟩
  · intro hic0
    subst hic0
    rw [Material.create_package, hv]
    dsimp only
    rw [hic, hH]
    dsimp only
    rw [mkMaterialPackage_noncoal]
  · rw [Material.create_stream, hv]
    dsimp only
    rw [hic, hH]
    dsimp only
    obtain ⟨h1, h2, h3, h4, h5, h6⟩ := mkMaterialStream_fields e m
      (v.map (fun x => mfr * x / (if normalise then v.sum else 1))) P T
      ic (props.lookup "HHV[MJ/kg]")
    exact ⟨_, rfl, h2, h5, h6, h3, h4⟩
  · rw [Material.create_package,
      show matCoal.converted_assays.lookup "A" = some [0.8, 0.2] from rfl]
    dsimp only
    rw [show matCoal.isCoalAssay "A" = .ok true by decide]
    dsimp only
    rw [show matCoal.getHHV "A" = .ok (some 25) by decide]
    dsimp only
    rw [mkMaterialPackage]
    rw [if_pos (by norm_num [List.sum_cons, List.sum_nil])]
    rw [MaterialPackage.calculate_H, if_pos rfl]
    rfl
  · rw [Material.create_package,
      show matAdd.converted_assays.lookup "B" = some [1] from rfl]
    dsimp only
    rw [show matAdd.isCoalAssay "B" = .ok false by decide]
    dsimp only
    rw [show matAdd.getHHV "B" = .error .keyError from rfl]
  · rw [Material.create_stream,
      show matAdd.converted_assays.lookup "B" = some [1] from rfl]
    dsimp only
    rw [show matAdd.isCoalAssay "B" = .ok false by decide]
    dsimp only
    rw [show matAdd.getHHV "B" = .error .keyError from rfl]

/-- Closed instantiation of the C8 theorem (the spec §8 scenario): material
`[Fe2O3[S1], SiO2[S1]]` with assay `[0.9, 0.1]` (an empty custom-properties
entry, as the file constructor creates), `create_package` at mass 100 and
T = 25 °C yields amounts `[90, 10]`, total mass 100 and (under the stub
enthalpy that is 0 at 25 °C) enthalpy exactly 0, with no coal flag. -/
theorem C8_create_from_assay_witness :
    (Material.create_package stubExt matFeSi (some "A") 100 1 25 true).map
      (fun p => (p.compound_masses, MaterialPackage.mass p, p.H, p.isCoal, p.HHV)) =
      .ok ([90, 10], 100, 0, false, none) := by
  rw [(C8_create_from_assay stubExt matFeSi "A" [0.9, 0.1] [] false 100 0 1 25 true rfl rfl
    (by decide)).1 rfl]
  have hl : ([(0.9 : ℚ), 0.1].map
      (fun x => 100 * x / (if true then List.sum [(0.9 : ℚ), 0.1] else 1))) = [90, 10] := by
    norm_num [List.sum_cons, List.sum_nil]
  rw [hl]
  have hs : sumCompoundH stubExt matFeSi [(90 : ℚ), 10] 25 = 0 := by
    rw [sumH_matFeSi]
    norm_num
  simp only [Except.map, MaterialPackage.mass, List.sum_cons, List.sum_nil, hs,
    show (([] : List (String × ℚ)).lookup "HHV[MJ/kg]") = none from rfl]
  norm_num

/-!  Claim C2: the coal enthalpy decomposition.  -/

/-- Spec-side pure-element test: the external element mass fraction of the
compound's bare formula is exactly 1.0 for the given element. -/
def pureElem (e : Externals) (el : String) (c : Compound) : Bool :=
  decide (e.emf c.formula el = 1)

/-- Spec-side daf membership: a compound is lumped when it is a pure C, H,
O, N or S element. -/
def isLumped (e : Externals) (c : Compound) : Bool :=
  pureElem e "C" c || pureElem e "H" c || pureElem e "O" c ||
    pureElem e "N" c || pureElem e "S" c

/-- The carbon bucket of the classification chain. -/
def selC (e : Externals) (c : Compound) : Bool := pureElem e "C" c

/-- The hydrogen bucket (tested after carbon). -/
def selH (e : Externals) (c : Compound) : Bool :=
  !pureElem e "C" c && pureElem e "H" c

/-- The oxygen bucket (tested after carbon and hydrogen). -/
def selO (e : Externals) (c : Compound) : Bool :=
  !pureElem e "C" c && !pureElem e "H" c && pureElem e "O" c

/-- The nitrogen bucket. -/
def selN (e : Externals) (c : Compound) : Bool :=
  !pureElem e "C" c && !pureElem e "H" c && !pureElem e "O" c && pureElem e "N" c

/-- The sulphur bucket. -/
def selS (e : Externals) (c : Compound) : Bool :=
  !pureElem e "C" c && !pureElem e "H" c && !pureElem e "O" c && !pureElem e "N" c &&
    pureElem e "S" c

/-- Sum of a weight over the compounds selected by `sel`. -/
def lumpedSum (L : List Compound) (w : Compound → ℚ) (sel : Compound → Bool) : ℚ :=
  ((L.filter sel).map w).sum

/-- Spec-side dry-ash-free mass (flow): the total mass of the pure-element
(C, H, O, N, S) compounds. -/
def dafMass (e : Externals) (mat : Material) (masses : List ℚ) : ℚ :=
  lumpedSum mat.compounds (massAt mat masses) (isLumped e)

/-- Spec-side non-lumped enthalpy: the per-compound enthalpies at `T` of the
compounds that are not lumped. -/
def nonLumpedH (e : Externals) (mat : Material) (masses : List ℚ) (T : ℚ) : ℚ :=
  lumpedSum mat.compounds (fun c => e.thermoH c.name T (massAt mat masses c))
    (fun c => !isLumped e c)

/-- A daf elemental mass fraction: one bucket over the daf total. -/
def dafY (e : Externals) (mat : Material) (masses : List ℚ) (sel : Compound → Bool) : ℚ :=
  lumpedSum mat.compounds (massAt mat masses) sel / dafMass e mat masses

/-- The classification fold of `_calculate_Hfr_coal` splits into the five
bucket sums and the non-lumped enthalpy sum. -/
theorem coalLump_foldl (e : Externals) (T : ℚ) (w : Compound → ℚ) :
    ∀ (L : List Compound) (a : CoalAcc),
      L.foldl (fun a c => coalLumpStep e T (w c) c a) a =
        { mC := a.mC + lumpedSum L w (selC e),
          mH := a.mH + lumpedSum L w (selH e),
          mO := a.mO + lumpedSum L w (selO e),
          mN := a.mN + lumpedSum L w (selN e),
          mS := a.mS + lumpedSum L w (selS e),
          acc := a.acc + lumpedSum L (fun c => e.thermoH c.name T (w c))
            (fun c => !isLumped e c) } := by
  intro L
  induction L with
  | nil => intro a; simp [lumpedSum]
  | cons c L ih =>
    intro a
    rw [List.foldl_cons, ih]
    by_cases h1 : e.emf c.formula "C" = 1 <;>
    by_cases h2 : e.emf c.formula "H" = 1 <;>
    by_cases h3 : e.emf c.formula "O" = 1 <;>
    by_cases h4 : e.emf c.formula "N" = 1 <;>
    by_cases h5 : e.emf c.formula "S" = 1 <;>
      simp only [coalLumpStep, h1, h2, h3, h4, h5, lumpedSum,
        List.filter_cons, selC, selH, selO, selN, selS, pureElem, isLumped,
        eq_self_iff_true, decide_True, decide_False, Bool.not_true,
        Bool.not_false, Bool.and_true, Bool.and_false, Bool.true_and, Bool.false_and,
        Bool.or_true, Bool.true_or, Bool.false_or, Bool.or_false,
        show (false = true) = False from eq_false (fun h => Bool.noConfusion h),
        ite_true, ite_false, List.map_cons, List.sum_cons, CoalAcc.mk.injEq] <;>
      and_intros <;> ring

/-- The daf total is the sum of the five bucket sums. -/
theorem lumped_split (e : Externals) (L : List Compound) (w : Compound → ℚ) :
    lumpedSum L w (isLumped e) =
      lumpedSum L w (selC e) + lumpedSum L w (selH e) + lumpedSum L w (selO e) +
      lumpedSum L w (selN e) + lumpedSum L w (selS e) := by
  induction L with
  | nil => simp [lumpedSum]
  | cons c L ih =>
    by_cases h1 : e.emf c.formula "C" = 1 <;>
    by_cases h2 : e.emf c.formula "H" = 1 <;>
    by_cases h3 : e.emf c.formula "O" = 1 <;>
    by_cases h4 : e.emf c.formula "N" = 1 <;>
    by_cases h5 : e.emf c.formula "S" = 1 <;>
      simp only [lumpedSum, List.filter_cons, selC, selH, selO, selN, selS, pureElem,
        isLumped, h1, h2, h3, h4, h5, eq_self_iff_true, decide_True, decide_False,
        Bool.not_true, Bool.not_false, Bool.and_true, Bool.and_false, Bool.true_and,
        Bool.false_and, Bool.or_true, Bool.true_or, Bool.false_or, Bool.or_false,
        show (false = true) = False from eq_false (fun h => Bool.noConfusion h),
        ite_true, ite_false, List.map_cons, List.sum_cons] at ih ⊢ <;>
      rw [ih] <;> ring

/-- Claim C2: for every Stream whose coal flag is set and whose
dry-ash-free (pure C, H, O, N, S) mass flow is positive, the enthalpy flow
at any temperature `T` decomposes as the sum of the non-lumped compounds'
enthalpies at `T`, plus the daf flow times the difference of the daf
correlation enthalpy (J/kg, divided by 3.6e6) between `T + 273.15` K and
298.15 K, plus the daf flow times the calibration constant `DH298`.  The
claim's final clause — that the evaluation succeeds for Package and Stream
alike — fails: every coal Package's `_calculate_H` dispatches to the
non-existent `MaterialPackage._calculate_Hfr_coal` and raises
`AttributeError`. -/
theorem C2_coal_enthalpy (e : Externals) (s : MaterialStream) (T : ℚ)
    (hc : s.isCoal = true) (hm : 0 < dafMass e s.material s.compound_mfrs) :
    MaterialStream.calculate_Hfr e s T =
      nonLumpedH e s.material s.compound_mfrs T
        + dafMass e s.material s.compound_mfrs *
            (e.daf (T + 273.15)
                (dafY e s.material s.compound_mfrs (selC e))
                (dafY e s.material s.compound_mfrs (selH e))
                (dafY e s.material s.compound_mfrs (selO e))
                (dafY e s.material s.compound_mfrs (selN e))
                (dafY e s.material s.compound_mfrs (selS e)) / 3.6e6
              - e.daf 298.15
                (dafY e s.material s.compound_mfrs (selC e))
                (dafY e s.material s.compound_mfrs (selH e))
                (dafY e s.material s.compound_mfrs (selO e))
                (dafY e s.material s.compound_mfrs (selN e))
                (dafY e s.material s.compound_mfrs (selS e)) / 3.6e6)
        + dafMass e s.material s.compound_mfrs * s.DH298
      ∧ ∀ p : MaterialPackage, p.isCoal = true →
          MaterialPackage.calculate_H e p T = Except.error Err.attributeError := by
  constructor
  · simp only [MaterialStream.calculate_Hfr, MaterialStream.calculate_Hfr_coal,
      MaterialStream.hfrCoalAcc, hc, ite_true]
    rw [coalLump_foldl]
    simp only [dafY, dafMass, nonLumpedH]
    rw [lumped_split e s.material.compounds (massAt s.material s.compound_mfrs)]
    simp only [zero_add]
    ring
  · intro p hp
    simp only [MaterialPackage.calculate_H, hp, ite_true]

/-- Witness for C2: the pure-carbon coal stream `strCoalA` (100 kg/h C,
`DH298 = 0`) at 50 °C under the stub externals has daf flow 100 > 0 and
enthalpy flow `0 + 100·(323.15 − 298.15) + 100·0 = 2500`, while the coal
package `pkgCoal` raises `AttributeError`. -/
theorem C2_coal_enthalpy_witness :
    MaterialStream.calculate_Hfr stubExt strCoalA 50 = 2500 ∧
      MaterialPackage.calculate_H stubExt pkgCoal 50 = Except.error Err.attributeError := by
  have hm : dafMass stubExt strCoalA.material strCoalA.compound_mfrs = 100 := by
    norm_num [dafMass, lumpedSum, isLumped, pureElem, stubExt, massAt,
      show strCoalA.material = matC from rfl,
      show strCoalA.compound_mfrs = [(100 : ℚ)] from rfl,
      show matC.compounds = [cC] from rfl,
      show Material.idx matC cC = 0 by decide,
      show cC.formula = "C" from rfl]
  obtain ⟨h1, h2⟩ := C2_coal_enthalpy stubExt strCoalA 50 rfl (by rw [hm]; norm_num)
  refine ⟨?_, h2 pkgCoal rfl⟩
  rw [h1, hm]
  norm_num [nonLumpedH, lumpedSum, isLumped, pureElem, stubExt,
    show strCoalA.material = matC from rfl,
    show strCoalA.DH298 = 0 from rfl,
    show matC.compounds = [cC] from rfl,
    show cC.formula = "C" from rfl]

/-!  Claim C7: different-material addition.  -/

